import Mathlib

/-!
Shallow embedding of the row-validation engine of `revisor-de-incidencias`
(`src/app/validation/rules.py`, `src/app/validation/engine.py`, and the
orchestrator entry points used by `src/app/ui/main_window.py`).

Spreadsheet cells are modelled by a closed variant `CellValue`; Python
`float` values are modelled by rationals (every claim under study concerns
order comparisons and decimal parsing, where the dyadic/decimal rationals
behave exactly like the floats the program manipulates).  Fallible Python
code (`try`/`except`, `errors="coerce"`) is modelled with `Option`.
-/

namespace Revisor

/-! ### Character and string utilities (Python `str` helpers) -/

def isSpaceChar (c : Char) : Bool := c.isWhitespace

/-- Lower-casing of a single character, covering ASCII and the accented
letters appearing in this data set (Python `str.lower`/`str.casefold`). -/
def lowerChar (c : Char) : Char :=
  if c = 'Ñ' then 'ñ'
  else if c = 'Á' then 'á'
  else if c = 'É' then 'é'
  else if c = 'Í' then 'í'
  else if c = 'Ó' then 'ó'
  else if c = 'Ú' then 'ú'
  else c.toLower

/-- Upper-casing of a single character, covering ASCII and the accented
letters appearing in this data set (Python `str.upper`). -/
def upperChar (c : Char) : Char :=
  if c = 'ñ' then 'Ñ'
  else if c = 'á' then 'Á'
  else if c = 'é' then 'É'
  else if c = 'í' then 'Í'
  else if c = 'ó' then 'Ó'
  else if c = 'ú' then 'Ú'
  else c.toUpper

def trimChars (cs : List Char) : List Char :=
  ((cs.dropWhile isSpaceChar).reverse.dropWhile isSpaceChar).reverse

/-- Python `str.strip()`. -/
def strTrim (s : String) : String := ⟨trimChars s.data⟩

/-- Python `str.lower()` / `str.casefold()` on this alphabet. -/
def strLower (s : String) : String := ⟨s.data.map lowerChar⟩

/-- Python `str.upper()` on this alphabet. -/
def strUpper (s : String) : String := ⟨s.data.map upperChar⟩

def digitVal (c : Char) : Nat := c.toNat - 48

/-- Value of a nonempty run of decimal digit characters. -/
def digitsVal (cs : List Char) : Nat :=
  cs.foldl (fun acc c => acc * 10 + digitVal c) 0

/-- Decimal digit characters of `n`, most significant first; the fuel
argument strictly dominates the digit count, so the rendering is exact. -/
def natDigitsGo : Nat → Nat → List Char → List Char
  | 0, _, acc => acc
  | fuel + 1, n, acc =>
    let acc := Char.ofNat (48 + n % 10) :: acc
    if n < 10 then acc else natDigitsGo fuel (n / 10) acc

def natDigits (n : Nat) : List Char := natDigitsGo (n + 1) n []

/-- Python `str` of an `int`: optional minus sign followed by digits. -/
def intChars (n : Int) : List Char :=
  if n < 0 then '-' :: natDigits n.natAbs else natDigits n.toNat

/-- Python `int(s)` on an already stripped string: optional sign, then a
nonempty digit run. Failure is `none` (models the raised `ValueError`). -/
def pyIntOfChars (cs : List Char) : Option Int :=
  match cs with
  | '-' :: rest =>
    if rest ≠ [] ∧ rest.all Char.isDigit then some (-(digitsVal rest : Int)) else none
  | '+' :: rest =>
    if rest ≠ [] ∧ rest.all Char.isDigit then some (digitsVal rest : Int) else none
  | rest =>
    if rest ≠ [] ∧ rest.all Char.isDigit then some (digitsVal rest : Int) else none

/-- Python `float(s)` restricted to plain decimal notation
`[+-]?digits[.digits]` / `[+-]?.digits`, the shapes this data contains;
any other text yields `none` (models the raised `ValueError`). -/
def pyFloatOfChars (cs : List Char) : Option ℚ :=
  let core : List Char → Option ℚ := fun body =>
    let ip := body.takeWhile Char.isDigit
    let rest := body.dropWhile Char.isDigit
    match rest with
    | [] => if ip ≠ [] then some (digitsVal ip : ℚ) else none
    | '.' :: fp =>
      if fp.all Char.isDigit ∧ (ip ≠ [] ∨ fp ≠ []) then
        some (Rat.divInt
          ((digitsVal ip : Int) * (10 ^ fp.length : Nat) + (digitsVal fp : Int))
          ((10 ^ fp.length : Nat) : Int))
      else none
    | _ => none
  match cs with
  | '-' :: body => (core body).map (fun q => -q)
  | '+' :: body => core body
  | body => core body

/-- Python `", ".join(l)` (also used with other separators). -/
def joinSep (sep : String) : List String → String
  | [] => ""
  | [x] => x
  | x :: y :: rest => x ++ sep ++ joinSep sep (y :: rest)

def leadsWith : List Char → List Char → Bool
  | [], _ => true
  | _ :: _, [] => false
  | a :: as, b :: bs => a == b && leadsWith as bs

/-- Python `k in s` on strings: substring containment. -/
def containsChars (k : List Char) : List Char → Bool
  | [] => k.isEmpty
  | b :: rest => leadsWith k (b :: rest) || containsChars k rest

def strContains (s k : String) : Bool := containsChars k.data s.data

/-- Python `max(xs, key=len)` starting from `best`: a later element
replaces the current best only when strictly longer. -/
def maxByLenGo (best : String) : List String → String
  | [] => best
  | x :: rest => maxByLenGo (if x.length > best.length then x else best) rest

/-! Rational arithmetic is spelled through `Rat.divInt` on integer
numerators so that every value the embedding produces evaluates by kernel
reduction; `ratMulInt q n` is `q * n` and `ratSubInt q n` is `q - n`. -/

def ratMulInt (q : ℚ) (n : Int) : ℚ := Rat.divInt (q.num * n) (q.den : Int)

def ratSubInt (q : ℚ) (n : Int) : ℚ :=
  Rat.divInt (q.num - n * (q.den : Int)) (q.den : Int)

/-! ### Time of day (Python `datetime.time`) -/

structure TimeOfDay where
  hour : Nat
  minute : Nat
  second : Nat
deriving DecidableEq, Repr

def TimeOfDay.toSecs (t : TimeOfDay) : Nat :=
  t.hour * 3600 + t.minute * 60 + t.second

/-- Minutes represented by a time of day: `hour*60 + minute + second/60`,
spelled over the total second count. -/
def TimeOfDay.toMinutes (t : TimeOfDay) : ℚ :=
  Rat.divInt (t.toSecs : Int) 60

def pad2 (n : Nat) : String :=
  if n < 10 then "0" ++ ⟨natDigits n⟩ else ⟨natDigits n⟩

/-- Python `str(time)`: `HH:MM:SS`. -/
def timeStr (t : TimeOfDay) : String :=
  pad2 t.hour ++ ":" ++ pad2 t.minute ++ ":" ++ pad2 t.second

/-- Python `time.strftime("%H:%M")`. -/
def timeHM (t : TimeOfDay) : String := pad2 t.hour ++ ":" ++ pad2 t.minute

/-! ### Raw cell values -/

/-- A raw spreadsheet cell: absent/NaN/NaT, free text, an integer, a real
number (Python `float`, modelled as `ℚ`), a bare time of day, or a full
date-time (year, month, day, time). -/
inductive CellValue where
  | empty
  | text (s : String)
  | int (n : Int)
  | real (q : ℚ)
  | time (t : TimeOfDay)
  | dateTime (year month day : Nat) (t : TimeOfDay)
deriving DecidableEq, Repr

/-- `is_empty` (rules.py lines 28-41): absent values, NaN-like values, and
text that strips to `""` or to `"nan"` case-insensitively. -/
def is_empty : CellValue → Bool
  | .empty => true
  | .text s => strLower (strTrim s) = "" || strLower (strTrim s) = "nan"
  | _ => false

/-- Fractional decimal digits of `0 ≤ r < 1` (Python float repr); the fuel
bound exceeds the expansion length of every representable float. -/
def fracDigits : Nat → ℚ → List Char
  | 0, _ => []
  | fuel + 1, r =>
    if r = 0 then []
    else
      let r10 := ratMulInt r 10
      let d := r10.floor.toNat
      Char.ofNat (48 + d) :: fracDigits fuel (ratSubInt r10 (d : Int))

/-- Python `str` of a `float`: sign, integer part, `.`, fraction digits
(`"3.0"` when the value is integral). -/
def ratStr (q : ℚ) : String :=
  let sign := if q < 0 then "-" else ""
  let a := if q < 0 then -q else q
  let ip := a.floor.toNat
  let fd := fracDigits 64 (ratSubInt a (ip : Int))
  sign ++ ⟨natDigits ip⟩ ++ "." ++ (if fd.isEmpty then "0" else ⟨fd⟩)

/-- Python `str(value)` for each cell shape (the engine only applies it to
values already known to be non-empty). -/
def cellStr : CellValue → String
  | .empty => ""
  | .text s => s
  | .int n => ⟨intChars n⟩
  | .real q => ratStr q
  | .time t => timeStr t
  | .dateTime y mo d t =>
    ⟨natDigits y⟩ ++ "-" ++ pad2 mo ++ "-" ++ pad2 d ++ " " ++ timeStr t

/-! ### Value normalizer (rules.py lines 44-138) -/

/-- Python `round` (banker's rounding, half to even). -/
def pyRound (q : ℚ) : Int :=
  let f := q.floor
  let r := ratSubInt q f
  if r < Rat.divInt 1 2 then f
  else if Rat.divInt 1 2 < r then f + 1
  else if f % 2 = 0 then f else f + 1

/-- Day-fraction to time of day: `datetime(1900,1,1) + round(q*86400) s`,
then the time component (so a full day wraps to midnight). -/
def timeFromDayFraction (q : ℚ) : TimeOfDay :=
  let secs := (pyRound (ratMulInt q 86400)).toNat % 86400
  ⟨secs / 3600, secs % 3600 / 60, secs % 60⟩

/-- The permissive `pd.to_datetime(s, errors="coerce")` call restricted to
the clock strings this column carries: `H:MM` or `H:MM:SS` with in-range
components; every other text coerces to NaT, i.e. `none`. -/
def parseTimeStr (s : String) : Option TimeOfDay :=
  let parts := (trimChars s.data).splitOn ':'
  match parts with
  | [h, m] =>
    if h ≠ [] ∧ h.all Char.isDigit ∧ m ≠ [] ∧ m.all Char.isDigit ∧
        digitsVal h < 24 ∧ digitsVal m < 60 then
      some ⟨digitsVal h, digitsVal m, 0⟩
    else none
  | [h, m, sec] =>
    if h ≠ [] ∧ h.all Char.isDigit ∧ m ≠ [] ∧ m.all Char.isDigit ∧
        sec ≠ [] ∧ sec.all Char.isDigit ∧
        digitsVal h < 24 ∧ digitsVal m < 60 ∧ digitsVal sec < 60 then
      some ⟨digitsVal h, digitsVal m, digitsVal sec⟩
    else none
  | _ => none

/-- `to_time` (rules.py lines 44-63). -/
def to_time (v : CellValue) : Option TimeOfDay :=
  if is_empty v then none
  else
    match v with
    | .time t => some t
    | .dateTime _ _ _ t => some t
    | .int n => if 0 ≤ n ∧ n < 1 then some (timeFromDayFraction (n : ℚ)) else none
    | .real q => if 0 ≤ q ∧ q < 1 then some (timeFromDayFraction q) else none
    | .text s => parseTimeStr s
    | .empty => none

/-- `to_int` (rules.py lines 66-72): `int(str(value).strip())`, failures
yield `none`. -/
def to_int (v : CellValue) : Option Int :=
  if is_empty v then none
  else pyIntOfChars (trimChars (cellStr v).data)

/-- `to_float` (rules.py lines 109-115): `float(value)`; numbers pass
through, text is parsed, times and date-times raise, hence `none`. -/
def to_float (v : CellValue) : Option ℚ :=
  if is_empty v then none
  else
    match v with
    | .int n => some (n : ℚ)
    | .real q => some q
    | .text s => pyFloatOfChars (trimChars s.data)
    | _ => none

/-- `normalize_incidence` (rules.py lines 118-124, duplicated as
`_normalize_incidence` in engine.py lines 34-42): upper-cased stripped
text truncated to its first three characters. -/
def normalize_incidence (v : CellValue) : String :=
  if is_empty v then ""
  else
    let inc := strUpper (strTrim (cellStr v))
    if inc.length ≥ 3 then ⟨inc.data.take 3⟩ else inc

/-- `to_minutes` (rules.py lines 127-138). -/
def to_minutes (v : CellValue) : Option ℚ :=
  match to_time v with
  | some t => some t.toMinutes
  | none =>
    match to_float v with
    | none => none
    | some q => if 0 ≤ q ∧ q < 1 then some (ratMulInt q (24 * 60)) else some q

/-! ### Motivo code parser (rules.py lines 75-106) -/

/-- All maximal decimal digit runs of a text, as numbers
(Python `re.findall(r"\d+", text)` followed by `int`); the fuel dominates
the length, so the scan is exact. -/
def digitRunsGo : Nat → List Char → List Nat
  | 0, _ => []
  | _ + 1, [] => []
  | fuel + 1, c :: rest =>
    if c.isDigit then
      digitsVal ((c :: rest).takeWhile Char.isDigit) ::
        digitRunsGo fuel ((c :: rest).dropWhile Char.isDigit)
    else digitRunsGo fuel rest

def digitRuns (cs : List Char) : List Nat := digitRunsGo cs.length cs

/-- After a digit run: `\s*`, one of `| / -`, `\s*`, then a nonempty digit
run; returns that second number when the tail matches. -/
def sepTail (cs : List Char) : Option Nat :=
  match cs.dropWhile isSpaceChar with
  | [] => none
  | sep :: rest =>
    if sep = '|' ∨ sep = '/' ∨ sep = '-' then
      let run2 := (rest.dropWhile isSpaceChar).takeWhile Char.isDigit
      if run2 ≠ [] then some (digitsVal run2) else none
    else none

/-- Leftmost match of `re.search(r"(\d+)\s*[|/\-]\s*(\d+)", text)`: fuelled
scan over the text; the fuel dominates the length, so the scan is exact.
Backtracking inside the greedy digit runs can never create a match that the
maximal runs miss, so maximal runs are used directly. -/
def sepSearchGo : Nat → List Char → Option (Nat × Nat)
  | 0, _ => none
  | _ + 1, [] => none
  | fuel + 1, c :: rest =>
    if c.isDigit then
      let run := (c :: rest).takeWhile Char.isDigit
      let after := (c :: rest).dropWhile Char.isDigit
      match sepTail after with
      | some b => some (digitsVal run, b)
      | none => sepSearchGo fuel after
    else sepSearchGo fuel rest

def sepSearch (cs : List Char) : Option (Nat × Nat) :=
  sepSearchGo cs.length cs

/-- Lines 87-91 of rules.py: render the integer, then split the rendering
as `(int(text[0]), int(text[1:]))` when it has at least two characters; a
minus sign in front position makes `int(text[0])` raise, which the
enclosing `except` turns into `(None, None)`. -/
def intSplit (n : Int) : Option Int × Option Int :=
  match intChars n with
  | c :: rest =>
    if rest.length ≥ 1 then
      match pyIntOfChars [c], pyIntOfChars rest with
      | some a, some b => (some a, some b)
      | _, _ => (none, none)
    else (none, some n)
  | [] => (none, some n)

/-- `parse_motivo_code` (rules.py lines 75-106).  The numeric branch
renders the number the way Python `str` does and splits the rendering; the
`try`/`except` around it is the `(none, none)` fallthrough. -/
def parse_motivo_code (v : CellValue) : Option Int × Option Int :=
  if is_empty v then (none, none)
  else
    match v with
    | .dateTime _ month day _ => (some (month : Int), some (day : Int))
    | .int n => intSplit n
    | .real q =>
      if q.den ≠ 1 then
        -- str(float) matched against `^(\d+)[.,](\d+)$`: a negative value
        -- renders with a minus sign and never matches; a non-negative one
        -- renders as integer digits, a dot, and the fraction digits.
        if 0 ≤ q then
          (some (q.floor.toNat : Int),
           some ((digitsVal (fracDigits 64 (ratSubInt q q.floor)) : Nat) : Int))
        else
          -- int(value) truncates toward zero, then the digit split runs.
          intSplit (-(Rat.floor (-q)))
      else intSplit q.num
    | v =>
      let text := trimChars (cellStr v).data
      let numbers := digitRuns text
      if numbers.length ≥ 3 ∧ 1900 ≤ numbers.headI then
        (some ((numbers.reverse.getD 1 0 : Nat) : Int),
         some ((numbers.reverse.getD 0 0 : Nat) : Int))
      else
        match sepSearch text with
        | some (a, b) => (some (a : Nat), some (b : Nat))
        | none =>
          if numbers.length ≥ 2 then
            (some ((numbers.getD 0 0 : Nat) : Int),
             some ((numbers.getD 1 0 : Nat) : Int))
          else
            match pyIntOfChars text with
            | some n => (none, some n)
            | none => (none, none)

/-! ### Rows and the incidence rule registry (rules.py lines 9-25, 141-291) -/

/-- The fixed 15-column schema `ALL_COLUMNS` (rules.py lines 9-25). -/
def ALL_COLUMNS : List String :=
  ["Recorrido", "Servicio", "Unidad", "Salida programada", "Salida real",
   "Hora de llegada", "Ciclo", "Unidad saliente", "Hora cambio", "Parada",
   "Incidencia", "Motivo", "Código", "Conductor", "Observaciones"]

/-- A Validation Issue: a (field name, message) pair. -/
abbrev Issue := String × String

/-- A row: field name to raw cell value.  `pd.Series.get` yields `None`
for an absent field, which `is_empty` treats as empty, so the lookup
defaults to `CellValue.empty`. -/
def Row := List (String × CellValue)

def Row.get (r : Row) (f : String) : CellValue :=
  match List.lookup f r with
  | some v => v
  | none => .empty

/-- `check_required` (rules.py lines 141-146). -/
def check_required (row : Row) (fields : List String) (rule : String) : List Issue :=
  fields.filterMap fun f =>
    if is_empty (row.get f) then some (f, rule ++ ": Campo obligatorio") else none

/-- `check_must_be_empty` (rules.py lines 149-154). -/
def check_must_be_empty (row : Row) (fields : List String) (rule : String) : List Issue :=
  fields.filterMap fun f =>
    if ¬ is_empty (row.get f) then some (f, rule ++ ": Campo debe estar vacio") else none

/-- `rule_in1` (rules.py lines 157-168). -/
def rule_in1 (row : Row) : List Issue :=
  let required := ALL_COLUMNS.filter fun c =>
    ¬ ["Unidad saliente", "Hora cambio", "Parada"].contains c
  check_required row required "IN1" ++
    (if ¬ is_empty (row.get "Unidad saliente") then
      [("Unidad saliente", "IN1: No debe haber dato aqui")]
    else [])

/-- `rule_in2` (rules.py lines 171-189). -/
def rule_in2 (row : Row) : List Issue :=
  let required := ALL_COLUMNS.filter fun c =>
    ¬ ["Unidad saliente", "Hora cambio", "Parada"].contains c
  check_required row required "IN2" ++
    check_must_be_empty row ["Unidad saliente", "Hora cambio", "Parada"] "IN2" ++
    (match to_time (row.get "Salida programada"), to_time (row.get "Salida real") with
     | some tp, some tr =>
       if ¬ (tr.toSecs < tp.toSecs) then
         [("Salida real", "IN2: Salida real debe ser menor que Salida programada")]
       else []
     | _, _ => [("Salida real", "IN2: Salida real y programada deben ser validas")])

/-- `rule_in3` (rules.py lines 192-210). -/
def rule_in3 (row : Row) : List Issue :=
  let required := ALL_COLUMNS.filter fun c =>
    ¬ ["Unidad saliente", "Hora cambio", "Parada"].contains c
  check_required row required "IN3" ++
    check_must_be_empty row ["Unidad saliente", "Hora cambio", "Parada"] "IN3" ++
    (match to_time (row.get "Salida programada"), to_time (row.get "Salida real") with
     | some tp, some tr =>
       if ¬ (tr.toSecs > tp.toSecs) then
         [("Salida real", "IN3: Salida real debe ser mayor que Salida programada")]
       else []
     | _, _ => [("Salida real", "IN3: Salida real y programada deben ser validas")])

/-- `rule_in4` (rules.py lines 213-231): a verbatim duplicate of the IN3
cross-field constraint. -/
def rule_in4 (row : Row) : List Issue :=
  let required := ALL_COLUMNS.filter fun c =>
    ¬ ["Unidad saliente", "Hora cambio", "Parada"].contains c
  check_required row required "IN4" ++
    check_must_be_empty row ["Unidad saliente", "Hora cambio", "Parada"] "IN4" ++
    (match to_time (row.get "Salida programada"), to_time (row.get "Salida real") with
     | some tp, some tr =>
       if ¬ (tr.toSecs > tp.toSecs) then
         [("Salida real", "IN4: Salida real debe ser mayor que Salida programada")]
       else []
     | _, _ => [("Salida real", "IN4: Salida real y programada deben ser validas")])

/-- `rule_in5` (rules.py lines 234-238). -/
def rule_in5 (row : Row) : List Issue :=
  let required := ALL_COLUMNS.filter fun c => ¬ ["Parada"].contains c
  check_required row required "IN5" ++ check_must_be_empty row ["Parada"] "IN5"

/-- `rule_in6` (rules.py lines 241-255). -/
def rule_in6 (row : Row) : List Issue :=
  let allowed := ["Recorrido", "Servicio", "Salida programada", "Incidencia",
                  "Motivo", "Observaciones"]
  ALL_COLUMNS.filterMap fun field =>
    if allowed.contains field then none
    else if ¬ is_empty (row.get field) then
      some (field,
        "IN6: Solo se permiten datos en Recorrido, Servicio, Salida programada, Incidencia, Motivo y Observaciones")
    else none

/-- `rule_in7` (rules.py lines 258-280); `is_8_35` and `is_8_29` are the
two conditions on the parsed motivo pair. -/
def rule_in7 (row : Row) : List Issue :=
  let mp := parse_motivo_code (row.get "Motivo")
  let required_exclusions :=
    if mp.1 = some 8 ∧ mp.2 = some 35 then ["Unidad saliente", "Hora cambio"]
    else ["Unidad saliente"]
  let required := ALL_COLUMNS.filter fun c => ¬ required_exclusions.contains c
  check_required row required "IN7" ++
    (if mp.1 = some 8 ∧ mp.2 = some 35 then
      check_must_be_empty row ["Unidad saliente", "Hora cambio"] "IN7"
    else if mp.1 = some 8 ∧ mp.2 = some 29 then
      check_must_be_empty row ["Unidad saliente"] "IN7" ++
        (if to_time (row.get "Hora cambio") = none then
          [("Hora cambio", "IN7: Hora cambio obligatorio para motivo 8-29")]
        else [])
    else [])

/-- `rule_no_incidence` (rules.py lines 283-291). -/
def rule_no_incidence (row : Row) : List Issue :=
  match to_time (row.get "Salida programada"), to_time (row.get "Salida real") with
  | some tp, some tr =>
    if tp ≠ tr then
      [("Salida real", "SP/SR: Salida programada debe ser igual a Salida real")]
    else []
  | _, _ => [("Salida real", "SP/SR: Salida programada y real deben existir y ser validas")]

/-! ### Route key normalizer and cycle checks (rules.py lines 294-369) -/

/-- Collapse every whitespace run into a single space
(`re.sub(r"\s+", " ", text)`); the flag records whether the previous
character already was whitespace. -/
def collapseWsGo : Bool → List Char → List Char
  | _, [] => []
  | prev, c :: rest =>
    if isSpaceChar c then
      if prev then collapseWsGo true rest else ' ' :: collapseWsGo true rest
    else c :: collapseWsGo false rest

/-- Remove spaces around dashes (`re.sub(r"\s*-\s*", "-", text)` on a text
whose whitespace runs are already single spaces); the accumulator holds
the output reversed. -/
def dashStripGo : List Char → List Char → List Char
  | acc, [] => acc.reverse
  | acc, c :: rest =>
    if c = '-' then dashStripGo ('-' :: acc.dropWhile (fun x => x = ' ')) rest
    else if c = ' ' then
      match acc with
      | '-' :: _ => dashStripGo acc rest
      | _ => dashStripGo (' ' :: acc) rest
    else dashStripGo (c :: acc) rest

/-- `normalize_recorrido` (rules.py lines 294-306): strip, casefold, unify
dash glyphs, collapse whitespace, strip whitespace around dashes. -/
def normalize_recorrido (v : CellValue) : Option String :=
  if is_empty v then none
  else
    let text := (trimChars (cellStr v).data).map lowerChar
    if text = [] then none
    else
      let text := text.map fun c => if c = '–' ∨ c = '—' then '-' else c
      let text := collapseWsGo false text
      let text := dashStripGo [] text
      some ⟨text⟩

/-- `ROUTE_CYCLE_LIMITS` (rules.py lines 309-319), in source order. -/
def ROUTE_CYCLE_LIMITS : List (String × TimeOfDay) :=
  [("terminal guasmo-s1", ⟨1, 50, 0⟩),
   ("t1-playita", ⟨0, 30, 0⟩),
   ("t1-pradera-cartonera", ⟨1, 20, 0⟩),
   ("t2-plaza dañin", ⟨0, 30, 0⟩),
   ("t2-esteros-fertisa", ⟨0, 30, 0⟩),
   ("t2-samanes-ps", ⟨1, 0, 0⟩),
   ("t2-guayacanes", ⟨0, 40, 0⟩),
   ("t2-trd-playita", ⟨2, 20, 0⟩)]

/-- Body of `rule_cycle_route_limits` once the route key is known
(rules.py lines 327-347): direct lookup with longest-substring fallback,
then the minutes comparison against the limit. -/
def route_limit_issues (row : Row) (recorrido : String) : List Issue :=
  if recorrido = "" then []
  else
    let limit? :=
      match List.lookup recorrido ROUTE_CYCLE_LIMITS with
      | some l => some l
      | none =>
        -- Fallback: the longest registered key that is a substring of the
        -- normalized route name (the first one wins among equal lengths).
        match (ROUTE_CYCLE_LIMITS.map Prod.fst).filter
            (fun key => strContains recorrido key) with
        | [] => none
        | k :: ks => List.lookup (maxByLenGo k ks) ROUTE_CYCLE_LIMITS
    match limit? with
    | none => []
    | some limit =>
      match to_minutes (row.get "Ciclo") with
      | none => [("Ciclo", "Ciclo obligatorio para " ++ recorrido)]
      | some ciclo =>
        if ciclo > limit.toMinutes then
          [("Ciclo", "Ciclo supera limite " ++ timeHM limit ++ " para " ++ recorrido)]
        else []

/-- `rule_cycle_route_limits` (rules.py lines 322-347): skip IN6 rows,
normalize the route name, then apply the limit check; the `if not
recorrido` guard in the source covers both the `None` and the empty-text
case. -/
def rule_cycle_route_limits (row : Row) : List Issue :=
  if normalize_incidence (row.get "Incidencia") = "IN6" then []
  else
    match normalize_recorrido (row.get "Recorrido") with
    | none => []
    | some recorrido => route_limit_issues row recorrido

/-- `rule_cycle` (rules.py lines 350-369): the averages table is a dict,
so the `in` membership test and the subsequent `.get` collapse into one
association-list lookup. -/
def rule_cycle (row : Row) (cycle_averages : List (String × ℚ)) : List Issue :=
  if is_empty (row.get "Recorrido") then []
  else
    let recorrido := strTrim (cellStr (row.get "Recorrido"))
    if recorrido = "" then []
    else
      match List.lookup recorrido cycle_averages with
      | none => []
      | some promedio =>
        match to_float (row.get "Ciclo") with
        | none =>
          [("Ciclo", "Ciclo invalido; promedio permitido " ++ ratStr promedio ++
            " para Recorrido " ++ recorrido)]
        | some ciclo =>
          if ciclo > promedio then
            [("Ciclo", "Ciclo " ++ ratStr ciclo ++ " supera promedio permitido " ++
              ratStr promedio ++ " para Recorrido " ++ recorrido)]
          else []

/-! ### Row validation orchestrator (engine.py) -/

/-- `ValidationResult` (engine.py lines 11-20). -/
structure ValidationResult where
  row_number : Nat
  row_values : List (String × String)
  problem_details : List String
deriving DecidableEq, Repr

/-- `INCIDENCE_RULES` (engine.py lines 23-31). -/
def INCIDENCE_RULES (code : String) : Option (Row → List Issue) :=
  if code = "IN1" then some rule_in1
  else if code = "IN2" then some rule_in2
  else if code = "IN3" then some rule_in3
  else if code = "IN4" then some rule_in4
  else if code = "IN5" then some rule_in5
  else if code = "IN6" then some rule_in6
  else if code = "IN7" then some rule_in7
  else none

/-- The rule-dispatch step (engine.py lines 70-81): a non-empty code runs
its registered rule when one exists and nothing otherwise; an empty code
runs the no-incidence rule. -/
def dispatch_issues (row : Row) : List Issue :=
  let incidence := normalize_incidence (row.get "Incidencia")
  if incidence ≠ "" then
    match INCIDENCE_RULES incidence with
    | some rule_fn => rule_fn row
    | none => []
  else rule_no_incidence row

/-- All issues a row accumulates in the main pass (engine.py lines 75-94):
rule dispatch followed, when an averages table was supplied, by the
average-based cycle check. -/
def full_issues (cycle_averages : List (String × ℚ)) (row : Row) : List Issue :=
  dispatch_issues row ++
    (if cycle_averages.isEmpty then [] else rule_cycle row cycle_averages)

/-- First-occurrence de-duplication of the issue field names
(engine.py lines 112-117). -/
def dedupFields (seen : List String) : List Issue → List String
  | [] => []
  | (f, _) :: rest =>
    if seen.contains f then dedupFields seen rest
    else f :: dedupFields (f :: seen) rest

/-- Assembly of one Validation Result (engine.py lines 102-125):
spreadsheet row number `idx + 2`, the stringified snapshot of every
schema field, and the de-duplicated problem field names. -/
def assemble (idx : Nat) (row : Row) (issues : List Issue) : ValidationResult :=
  { row_number := idx + 2
    row_values := ALL_COLUMNS.map fun c =>
      (c, if is_empty (row.get c) then "" else cellStr (row.get c))
    problem_details := dedupFields [] issues }

/-- One iteration of the main per-row loop (engine.py lines 64-125):
suppression of `Servicio == 0` rows outside IN7, discard of issue-free
rows, result assembly otherwise. -/
def process_row (cycle_averages : List (String × ℚ)) (idx : Nat) (row : Row) :
    Option ValidationResult :=
  if to_int (row.get "Servicio") = some 0 ∧
      normalize_incidence (row.get "Incidencia") ≠ "IN7" then none
  else if full_issues cycle_averages row = [] then none
  else some (assemble idx row (full_issues cycle_averages row))

def processRows (cycle_averages : List (String × ℚ)) :
    Nat → List Row → List ValidationResult
  | _, [] => []
  | idx, row :: rest =>
    match process_row cycle_averages idx row with
    | some res => res :: processRows cycle_averages (idx + 1) rest
    | none => processRows cycle_averages (idx + 1) rest

/-- The input table: its column header set and its rows in order. -/
structure DataFrame where
  columns : List String
  rows : List Row

/-- The columns of the schema absent from the input
(engine.py line 51). -/
def missingCols (df : DataFrame) : List String :=
  ALL_COLUMNS.filter fun c => ¬ df.columns.contains c

/-- The message of the schema pre-check failure (engine.py line 53). -/
def missingMsg (missing : List String) : String :=
  "Faltan columnas en el Excel: " ++ joinSep ", " missing

/-- `validate_dataframe` (engine.py lines 45-127); the raised
`ValueError` is the `Except.error` branch. -/
def validate_dataframe (df : DataFrame) (cycle_averages : List (String × ℚ)) :
    Except String (List ValidationResult) :=
  if missingCols df = [] then .ok (processRows cycle_averages 0 df.rows)
  else .error (missingMsg (missingCols df))

/-! ### The cycle-only orchestrator

`main_window.py` (lines 21-25) imports `validate_cycles_dataframe` from
`app.validation.engine`, but the provided `engine.py` does not contain its
definition, so it is reconstructed from the design document. -/

/-- Modelled from the spec: `validate_cycles_dataframe` is imported by the
UI from `app.validation.engine` yet missing from the provided engine
source.  Section 4.5 describes it as the variant running steps 1-3 and 6
of the main orchestrator against the static-limit check (4.4b) instead of
the rule-specific issues, sharing the suppression and result-assembly
logic (which includes the discard of issue-free rows that result assembly
presupposes).  Per-row step. -/
def process_cycle_row (idx : Nat) (row : Row) : Option ValidationResult :=
  if to_int (row.get "Servicio") = some 0 ∧
      normalize_incidence (row.get "Incidencia") ≠ "IN7" then none
  else if rule_cycle_route_limits row = [] then none
  else some (assemble idx row (rule_cycle_route_limits row))

def processCycleRows : Nat → List Row → List ValidationResult
  | _, [] => []
  | idx, row :: rest =>
    match process_cycle_row idx row with
    | some res => res :: processCycleRows (idx + 1) rest
    | none => processCycleRows (idx + 1) rest

/-- Modelled from the spec: the whole cycle-only pass, with the same
schema pre-check as the main orchestrator (spec sections 4.5 and 6). -/
def validate_cycles_dataframe (df : DataFrame) :
    Except String (List ValidationResult) :=
  if missingCols df = [] then .ok (processCycleRows 0 df.rows)
  else .error (missingMsg (missingCols df))

/-! ### The orchestrator skeleton stated by the spec

Section 4.5 presents both passes as one state machine parameterised by
how a row derives its issues; the skeleton below follows that wording so
that both concrete orchestrators can be compared against it. -/

/-- The spec-side per-row skeleton: derive issues, suppress Servicio-0
rows outside IN7, discard issue-free rows, assemble the result. -/
def skeleton_row (issuesOf : Row → List Issue) (idx : Nat) (row : Row) :
    Option ValidationResult :=
  if to_int (row.get "Servicio") = some 0 ∧
      normalize_incidence (row.get "Incidencia") ≠ "IN7" then none
  else if issuesOf row = [] then none
  else some (assemble idx row (issuesOf row))

def skeletonRows (issuesOf : Row → List Issue) :
    Nat → List Row → List ValidationResult
  | _, [] => []
  | idx, row :: rest =>
    match skeleton_row issuesOf idx row with
    | some res => res :: skeletonRows issuesOf (idx + 1) rest
    | none => skeletonRows issuesOf (idx + 1) rest

/-- The spec-side pass skeleton: schema pre-check, then the per-row state
machine over the rows in order. -/
def validateWith (issuesOf : Row → List Issue) (df : DataFrame) :
    Except String (List ValidationResult) :=
  if missingCols df = [] then .ok (skeletonRows issuesOf 0 df.rows)
  else .error (missingMsg (missingCols df))

/-! ### Shared helper lemmas -/

theorem natDigitsGo_ne_nil (fuel : Nat) :
    ∀ (n : Nat) (acc : List Char), acc ≠ [] → natDigitsGo fuel n acc ≠ [] := by
  induction fuel with
  | zero => intro n acc h; simpa [natDigitsGo] using h
  | succ f ih =>
    intro n acc _
    unfold natDigitsGo
    by_cases hn : n < 10
    · simp [hn]
    · simp only [hn, if_false]
      exact ih _ _ (by simp)

theorem natDigits_ne_nil (n : Nat) : natDigits n ≠ [] := by
  unfold natDigits natDigitsGo
  by_cases hn : n < 10
  · simp [hn]
  · simp only [hn, if_false]
    exact natDigitsGo_ne_nil _ _ _ (by simp)

theorem strData_append (s t : String) : (s ++ t).data = s.data ++ t.data := rfl

theorem mem_joinSep_isInfix {c : String} {l : List String} (sep : String)
    (h : c ∈ l) : ∃ u v, u ++ c.data ++ v = (joinSep sep l).data := by
  induction l with
  | nil => cases h
  | cons x xs ih =>
    rcases List.mem_cons.mp h with rfl | hxs
    · cases xs with
      | nil => exact ⟨[], [], by simp [joinSep]⟩
      | cons y ys =>
        refine ⟨[], (sep ++ joinSep sep (y :: ys)).data, ?_⟩
        simp [joinSep, strData_append, List.append_assoc]
    · cases xs with
      | nil => cases hxs
      | cons y ys =>
        obtain ⟨u, v, huv⟩ := ih hxs
        refine ⟨(x ++ sep).data ++ u, v, ?_⟩
        rw [show joinSep sep (x :: y :: ys) = x ++ sep ++ joinSep sep (y :: ys) from rfl]
        simp only [strData_append, List.append_assoc, huv]

theorem mem_check_required {row : Row} {fields : List String} {rule f m : String} :
    (f, m) ∈ check_required row fields rule ↔
      f ∈ fields ∧ is_empty (row.get f) = true ∧ m = rule ++ ": Campo obligatorio" := by
  simp only [check_required, List.mem_filterMap]
  constructor
  · rintro ⟨a, ha, hsome⟩
    by_cases he : is_empty (Row.get row a) = true
    · rw [if_pos he] at hsome
      simp only [Option.some.injEq, Prod.mk.injEq] at hsome
      obtain ⟨rfl, rfl⟩ := hsome
      exact ⟨ha, he, rfl⟩
    · rw [if_neg he] at hsome; cases hsome
  · rintro ⟨hf, he, rfl⟩
    exact ⟨f, hf, by rw [if_pos he]⟩

theorem mem_check_must_be_empty {row : Row} {fields : List String} {rule f m : String} :
    (f, m) ∈ check_must_be_empty row fields rule ↔
      f ∈ fields ∧ is_empty (row.get f) = false ∧ m = rule ++ ": Campo debe estar vacio" := by
  simp only [check_must_be_empty, List.mem_filterMap]
  constructor
  · rintro ⟨a, ha, hsome⟩
    by_cases he : is_empty (Row.get row a) = true
    · rw [if_neg (by simp [he])] at hsome; cases hsome
    · rw [if_pos (by simp [he])] at hsome
      simp only [Option.some.injEq, Prod.mk.injEq] at hsome
      obtain ⟨rfl, rfl⟩ := hsome
      exact ⟨ha, by simpa using he, rfl⟩
  · rintro ⟨hf, he, rfl⟩
    exact ⟨f, hf, by rw [if_pos (by simp [he])]⟩

/-! ### Claim C1: Servicio-0 suppression -/

/-- C1: a row whose Servicio cell parses to integer 0 is suppressed by the
orchestrator whenever its normalized incidence code is not IN7, regardless
of the issues already accumulated; with code IN7 the row is processed
normally: discarded exactly when issue-free and otherwise reported with
the standard result assembly. -/
theorem claim_c1 (avgs : List (String × ℚ)) (idx : Nat) (row : Row)
    (hz : to_int (row.get "Servicio") = some 0) :
    (normalize_incidence (row.get "Incidencia") ≠ "IN7" →
      process_row avgs idx row = none) ∧
    (normalize_incidence (row.get "Incidencia") = "IN7" →
      process_row avgs idx row =
        if full_issues avgs row = [] then none
        else some (assemble idx row (full_issues avgs row))) := by
  constructor
  · intro h7
    unfold process_row
    rw [if_pos ⟨hz, h7⟩]
  · intro h7
    unfold process_row
    rw [if_neg (by rintro ⟨_, hne⟩; exact hne h7)]

def rowServicio0IN1 : Row :=
  [("Servicio", .text "0"), ("Incidencia", .text "IN1")]

/-- Witness for C1: a row with Servicio `"0"` and code IN1, which violates
several IN1 requirements, still yields no Validation Result. -/
theorem claim_c1_witness : process_row [] 0 rowServicio0IN1 = none :=
  (claim_c1 [] 0 rowServicio0IN1 (by decide)).1 (by decide)

/-! ### Claim C4: the cycle-only orchestrator variant -/

theorem processCycleRows_eq_skeleton (idx : Nat) (rows : List Row) :
    processCycleRows idx rows = skeletonRows rule_cycle_route_limits idx rows := by
  induction rows generalizing idx with
  | nil => rfl
  | cons row rest ih =>
    unfold processCycleRows skeletonRows
    rw [show process_cycle_row idx row = skeleton_row rule_cycle_route_limits idx row from rfl]
    cases skeleton_row rule_cycle_route_limits idx row <;> simp [ih]

theorem processRows_eq_skeleton (avgs : List (String × ℚ)) (idx : Nat)
    (rows : List Row) :
    processRows avgs idx rows = skeletonRows (full_issues avgs) idx rows := by
  induction rows generalizing idx with
  | nil => rfl
  | cons row rest ih =>
    unfold processRows skeletonRows
    rw [show process_row avgs idx row = skeleton_row (full_issues avgs) idx row from rfl]
    cases skeleton_row (full_issues avgs) idx row <;> simp [ih]

/-- C4: both orchestrators are instances of the one state-machine skeleton
of spec section 4.5 — the same schema pre-check, incidence
classification, Servicio-0 suppression and result assembly — differing
only in how a row derives its issues: the main pass uses the per-code
rules (plus the optional average check), the cycle-only pass uses the
static-limit cycle check. -/
theorem claim_c4 (df : DataFrame) :
    validate_cycles_dataframe df = validateWith rule_cycle_route_limits df ∧
    ∀ avgs, validate_dataframe df avgs = validateWith (full_issues avgs) df := by
  constructor
  · unfold validate_cycles_dataframe validateWith
    rw [processCycleRows_eq_skeleton]
  · intro avgs
    unfold validate_dataframe validateWith
    rw [processRows_eq_skeleton]

/-! ### Claim C6: motivo parser examples -/

/-- C6: the motivo parser sends text `"8/29"` to (8, 29), text `"8-35"`
to (8, 35), the integer 829 to (8, 29) by splitting the first digit from
the rest, and the empty cell to (absent, absent). -/
theorem claim_c6 :
    parse_motivo_code (.text "8/29") = (some 8, some 29) ∧
    parse_motivo_code (.text "8-35") = (some 8, some 35) ∧
    parse_motivo_code (.int 829) = (some 8, some 29) ∧
    parse_motivo_code .empty = (none, none) := by
  refine ⟨by decide, by decide, by decide, by decide⟩

/-! ### Claim C8: totality of the normalizer conversions -/

/-- C8: the conversions to time of day, integer and real are total
functions into `Option` — modelled failure is the `none` result, never an
error — and an empty input always yields `none`. -/
theorem claim_c8 (v : CellValue) (h : is_empty v = true) :
    to_time v = none ∧ to_int v = none ∧ to_float v = none := by
  refine ⟨?_, ?_, ?_⟩ <;> simp only [to_time, to_int, to_float, h, if_true, reduceIte]

/-- Witness for C8: the whitespace-padded `"nan"` cell is empty and all
three conversions yield `none` on it. -/
theorem claim_c8_witness :
    to_time (.text " nan ") = none ∧ to_int (.text " nan ") = none ∧
    to_float (.text " nan ") = none :=
  claim_c8 (.text " nan ") (by decide)

/-! ### Claim C9: unrecognized incidence codes -/

/-- C9: a row whose normalized incidence code is non-empty but outside
IN1..IN7 gets zero issues from the rule-dispatch step: no registered rule
runs and the no-incidence departure-time check is bypassed. -/
theorem claim_c9 (row : Row)
    (h : normalize_incidence (row.get "Incidencia") ∉
      ["", "IN1", "IN2", "IN3", "IN4", "IN5", "IN6", "IN7"]) :
    dispatch_issues row = [] := by
  simp only [List.mem_cons, not_or] at h
  obtain ⟨h0, h1, h2, h3, h4, h5, h6, h7, -⟩ := h
  unfold dispatch_issues
  rw [if_pos h0]
  unfold INCIDENCE_RULES
  rw [if_neg h1, if_neg h2, if_neg h3, if_neg h4, if_neg h5, if_neg h6, if_neg h7]

def rowINX : Row :=
  [("Incidencia", .text "INX - typo"),
   ("Salida programada", .text "08:00"), ("Salida real", .text "09:00")]

/-- Witness for C9: a row with code `"INX"` and unequal departure times
still produces no dispatch issues. -/
theorem claim_c9_witness : dispatch_issues rowINX = [] :=
  claim_c9 rowINX (by decide)

/-! ### Claim C10: negative integers in the motivo parser -/

/-- C10: every negative integer motivo value parses to (absent, absent):
its decimal rendering starts with the minus sign, so the first-character
split fails and the error handler returns the absent pair. -/
theorem claim_c10 (n : Int) (h : n < 0) :
    parse_motivo_code (.int n) = (none, none) := by
  have hne : natDigits n.natAbs ≠ [] := natDigits_ne_nil _
  have hlen : (natDigits n.natAbs).length ≥ 1 :=
    Nat.succ_le_of_lt (List.length_pos.mpr hne)
  unfold parse_motivo_code
  rw [show is_empty (.int n) = false from rfl]
  simp only [Bool.false_eq_true, if_false]
  unfold intSplit intChars
  rw [if_pos h]
  simp only [hlen, ge_iff_le, if_true, reduceIte]
  rw [show pyIntOfChars ['-'] = none from rfl]

/-- Witness for C10: the value -829 parses to (absent, absent). -/
theorem claim_c10_witness : parse_motivo_code (.int (-829)) = (none, none) :=
  claim_c10 (-829) (by decide)

/-! ### Claim C2: the schema pre-check -/

/-- C2: when at least one schema column is missing from the input, the
pass fails with the single error message that names every missing column
(each missing column name occurs verbatim inside the message) and no
Validation Results are produced; when all 15 columns are present this
step never fails. -/
theorem claim_c2 (df : DataFrame) (avgs : List (String × ℚ)) :
    (missingCols df ≠ [] →
      validate_dataframe df avgs = .error (missingMsg (missingCols df)) ∧
      ∀ c ∈ ALL_COLUMNS, c ∉ df.columns →
        ∃ u v, u ++ c.data ++ v = (missingMsg (missingCols df)).data) ∧
    (missingCols df = [] →
      validate_dataframe df avgs = .ok (processRows avgs 0 df.rows)) := by
  constructor
  · intro hne
    constructor
    · unfold validate_dataframe
      rw [if_neg hne]
    · intro c hall hnot
      have hmem : c ∈ missingCols df := by
        unfold missingCols
        rw [List.mem_filter]
        refine ⟨hall, ?_⟩
        simp only [decide_eq_true_eq]
        intro hcont
        exact hnot (by simpa using hcont)
      obtain ⟨u, v, huv⟩ := mem_joinSep_isInfix ", " hmem
      exact ⟨"Faltan columnas en el Excel: ".data ++ u, v, by
        unfold missingMsg
        rw [strData_append, ← huv]
        simp [List.append_assoc]⟩
  · intro hnil
    unfold validate_dataframe
    rw [if_pos hnil]

def dfNoConductor : DataFrame :=
  ⟨["Recorrido", "Servicio", "Unidad", "Salida programada", "Salida real",
    "Hora de llegada", "Ciclo", "Unidad saliente", "Hora cambio", "Parada",
    "Incidencia", "Motivo", "Código", "Observaciones"], []⟩

/-- Witness for C2: a header set missing exactly `"Conductor"` fails with
a message containing `"Conductor"` and produces no results. -/
theorem claim_c2_witness :
    validate_dataframe dfNoConductor [] =
      .error (missingMsg (missingCols dfNoConductor)) ∧
    ∃ u v, u ++ "Conductor".data ++ v = (missingMsg (missingCols dfNoConductor)).data := by
  have h := (claim_c2 dfNoConductor []).1 (by decide)
  exact ⟨h.1, h.2 "Conductor" (by decide) (by decide)⟩

/-! ### Claim C3: the IN7 rule -/

theorem empty_to_time {v : CellValue} (h : is_empty v = true) : to_time v = none := by
  unfold to_time
  simp [h]

def rowC3 : Row :=
  [("Recorrido", .text "r"), ("Servicio", .int 5), ("Unidad", .int 1),
   ("Salida programada", .text "08:00"), ("Salida real", .text "08:00"),
   ("Hora de llegada", .text "09:00"), ("Ciclo", .int 20),
   ("Unidad saliente", .text "X"), ("Hora cambio", .text "08:30"),
   ("Parada", .text "p"), ("Incidencia", .text "IN7"), ("Motivo", .text "1/2"),
   ("Código", .int 3), ("Conductor", .text "Ana"), ("Observaciones", .text "o")]

/-- Counterexample to C3 as stated: in this row every field is populated,
`"Unidad saliente"` is non-empty, and the motivo parses to (1, 2) — yet
the IN7 rule produces no issue at all, so a non-empty `"Unidad saliente"`
is not flagged for every parsed motivo value. -/
theorem claim_c3_counterexample :
    is_empty (rowC3.get "Unidad saliente") = false ∧
    parse_motivo_code (rowC3.get "Motivo") = (some 1, some 2) ∧
    rule_in7 rowC3 = [] := by
  refine ⟨by decide, by decide, by decide⟩

/-- C3 (amended): the IN7 rule flags a non-empty `"Unidad saliente"` as
must-be-empty exactly when the motivo parses to (8, 29) or (8, 35) — not
for every motivo value; when the motivo parses to (8, 35), `"Hora cambio"`
is excluded from the required fields and is flagged iff it is non-empty;
when the motivo parses to (8, 29), `"Hora cambio"` is flagged iff it does
not parse as a time of day. -/
theorem claim_c3 (row : Row) (m s : Option Int)
    (hmp : parse_motivo_code (row.get "Motivo") = (m, s)) :
    ((∃ msg, ("Unidad saliente", msg) ∈ rule_in7 row) ↔
      ((m = some 8 ∧ (s = some 29 ∨ s = some 35)) ∧
        is_empty (row.get "Unidad saliente") = false)) ∧
    (m = some 8 ∧ s = some 35 →
      ((∃ msg, ("Hora cambio", msg) ∈ rule_in7 row) ↔
        is_empty (row.get "Hora cambio") = false)) ∧
    (m = some 8 ∧ s = some 29 →
      ((∃ msg, ("Hora cambio", msg) ∈ rule_in7 row) ↔
        to_time (row.get "Hora cambio") = none)) := by
  have hrule : rule_in7 row =
      check_required row (ALL_COLUMNS.filter fun c =>
        ¬ (if m = some 8 ∧ s = some 35 then
            ["Unidad saliente", "Hora cambio"]
          else ["Unidad saliente"]).contains c) "IN7" ++
      (if m = some 8 ∧ s = some 35 then
        check_must_be_empty row ["Unidad saliente", "Hora cambio"] "IN7"
      else if m = some 8 ∧ s = some 29 then
        check_must_be_empty row ["Unidad saliente"] "IN7" ++
          (if to_time (row.get "Hora cambio") = none then
            [("Hora cambio", "IN7: Hora cambio obligatorio para motivo 8-29")]
          else [])
      else []) := by
    simp only [rule_in7, hmp]
  by_cases h35 : m = some 8 ∧ s = some 35
  · rw [if_pos h35, if_pos h35] at hrule
    refine ⟨?_, ?_, ?_⟩
    · constructor
      · rintro ⟨msg, hmem⟩
        rw [hrule] at hmem
        rcases List.mem_append.mp hmem with hcr | hcme
        · exact absurd (mem_check_required.mp hcr).1 (by decide)
        · exact ⟨⟨h35.1, Or.inr h35.2⟩, (mem_check_must_be_empty.mp hcme).2.1⟩
      · rintro ⟨-, hus⟩
        refine ⟨"IN7" ++ ": Campo debe estar vacio", ?_⟩
        rw [hrule]
        exact List.mem_append.mpr (Or.inr
          (mem_check_must_be_empty.mpr ⟨by decide, hus, rfl⟩))
    · intro _
      constructor
      · rintro ⟨msg, hmem⟩
        rw [hrule] at hmem
        rcases List.mem_append.mp hmem with hcr | hcme
        · exact absurd (mem_check_required.mp hcr).1 (by decide)
        · exact (mem_check_must_be_empty.mp hcme).2.1
      · intro hhc
        refine ⟨"IN7" ++ ": Campo debe estar vacio", ?_⟩
        rw [hrule]
        exact List.mem_append.mpr (Or.inr
          (mem_check_must_be_empty.mpr ⟨by decide, hhc, rfl⟩))
    · rintro ⟨-, h29⟩
      rw [h35.2] at h29
      exact absurd h29 (by decide)
  · by_cases h29 : m = some 8 ∧ s = some 29
    · rw [if_neg h35, if_neg h35, if_pos h29] at hrule
      refine ⟨?_, ?_, ?_⟩
      · constructor
        · rintro ⟨msg, hmem⟩
          rw [hrule] at hmem
          rcases List.mem_append.mp hmem with hcr | hrest
          · exact absurd (mem_check_required.mp hcr).1 (by decide)
          · rcases List.mem_append.mp hrest with hcme | hite
            · exact ⟨⟨h29.1, Or.inl h29.2⟩, (mem_check_must_be_empty.mp hcme).2.1⟩
            · by_cases ht : to_time (row.get "Hora cambio") = none
              · rw [if_pos ht] at hite
                have heq : ("Unidad saliente", msg) =
                    ("Hora cambio", "IN7: Hora cambio obligatorio para motivo 8-29") :=
                  List.mem_singleton.mp hite
                have hf : "Unidad saliente" = "Hora cambio" := congrArg Prod.fst heq
                exact absurd hf (by decide)
              · rw [if_neg ht] at hite
                cases hite
        · rintro ⟨-, hus⟩
          refine ⟨"IN7" ++ ": Campo debe estar vacio", ?_⟩
          rw [hrule]
          exact List.mem_append.mpr (Or.inr (List.mem_append.mpr (Or.inl
            (mem_check_must_be_empty.mpr ⟨by decide, hus, rfl⟩))))
      · rintro ⟨-, h35'⟩
        rw [h29.2] at h35'
        exact absurd h35' (by decide)
      · intro _
        constructor
        · rintro ⟨msg, hmem⟩
          rw [hrule] at hmem
          rcases List.mem_append.mp hmem with hcr | hrest
          · exact empty_to_time (mem_check_required.mp hcr).2.1
          · rcases List.mem_append.mp hrest with hcme | hite
            · exact absurd (mem_check_must_be_empty.mp hcme).1 (by decide)
            · by_cases ht : to_time (row.get "Hora cambio") = none
              · exact ht
              · rw [if_neg ht] at hite
                cases hite
        · intro ht
          refine ⟨"IN7: Hora cambio obligatorio para motivo 8-29", ?_⟩
          rw [hrule]
          refine List.mem_append.mpr (Or.inr (List.mem_append.mpr (Or.inr ?_)))
          rw [if_pos ht]
          exact List.mem_singleton.mpr rfl
    · rw [if_neg h35, if_neg h35, if_neg h29] at hrule
      refine ⟨?_, ?_, ?_⟩
      · constructor
        · rintro ⟨msg, hmem⟩
          rw [hrule] at hmem
          rcases List.mem_append.mp hmem with hcr | hnil
          · exact absurd (mem_check_required.mp hcr).1 (by decide)
          · cases hnil
        · rintro ⟨⟨hm, hs⟩, -⟩
          rcases hs with hs | hs
          · exact absurd ⟨hm, hs⟩ h29
          · exact absurd ⟨hm, hs⟩ h35
      · intro h
        exact absurd h h35
      · intro h
        exact absurd h h29

def row835 : Row :=
  [("Recorrido", .text "r"), ("Servicio", .int 5), ("Unidad", .int 1),
   ("Salida programada", .text "08:00"), ("Salida real", .text "08:00"),
   ("Hora de llegada", .text "09:00"), ("Ciclo", .int 20),
   ("Unidad saliente", .text "X"), ("Hora cambio", .text "08:30"),
   ("Parada", .text "p"), ("Incidencia", .text "IN7"), ("Motivo", .text "8-35"),
   ("Código", .int 3), ("Conductor", .text "Ana"), ("Observaciones", .text "o")]

/-- Witness for C3: under motivo (8, 35) a populated `"Hora cambio"` and a
populated `"Unidad saliente"` are both flagged. -/
theorem claim_c3_witness :
    (∃ msg, ("Hora cambio", msg) ∈ rule_in7 row835) ∧
    (∃ msg, ("Unidad saliente", msg) ∈ rule_in7 row835) := by
  have h := claim_c3 row835 (some 8) (some 35) (by decide)
  exact ⟨(h.2.1 ⟨rfl, rfl⟩).mpr (by decide), h.1.mpr ⟨⟨rfl, Or.inr rfl⟩, by decide⟩⟩

/-! ### Claim C5: the average-based cycle check -/

def rowC5 : Row := [("Recorrido", .text " R1 "), ("Ciclo", .int 20)]

/-- Counterexample to C5 as stated: the route cell text `" R1 "` is not a
key of the averages table (whose only key is `"R1"`), yet the check still
produces a `"Ciclo"` issue — the code strips the route text before the
lookup instead of using it exactly as it appears. -/
theorem claim_c5_counterexample :
    List.lookup " R1 " [(("R1" : String), (10 : ℚ))] = none ∧
    is_empty (rowC5.get "Recorrido") = false ∧
    rule_cycle rowC5 [("R1", (10 : ℚ))] =
      [("Ciclo", "Ciclo 20.0 supera promedio permitido 10.0 para Recorrido R1")] := by
  refine ⟨by decide, by decide, by decide⟩

/-- C5 (amended): the average-based check keys the averages table by the
stripped route-name text (no other normalization); it produces a
`"Ciclo"` issue iff the route cell is non-empty, its stripped text is a
non-empty key of the table, and the cycle value either fails to parse as
a real number or strictly exceeds the table's average. -/
theorem claim_c5 (row : Row) (avgs : List (String × ℚ)) :
    (∃ msg, ("Ciclo", msg) ∈ rule_cycle row avgs) ↔
      (is_empty (row.get "Recorrido") = false ∧
       strTrim (cellStr (row.get "Recorrido")) ≠ "" ∧
       ∃ a, List.lookup (strTrim (cellStr (row.get "Recorrido"))) avgs = some a ∧
         (to_float (row.get "Ciclo") = none ∨
          ∃ q, to_float (row.get "Ciclo") = some q ∧ q > a)) := by
  unfold rule_cycle
  by_cases he : is_empty (Row.get row "Recorrido") = true
  · rw [if_pos he]
    simp [he]
  · rw [if_neg he]
    by_cases hs : strTrim (cellStr (Row.get row "Recorrido")) = ""
    · rw [if_pos hs]
      simp [he, hs]
    · rw [if_neg hs]
      cases hl : List.lookup (strTrim (cellStr (Row.get row "Recorrido"))) avgs with
      | none => simp [he, hs, hl]
      | some a =>
        cases hf : to_float (Row.get row "Ciclo") with
        | none => simp [he, hs, hl, hf]
        | some q =>
          by_cases hgt : q > a
          · simp [he, hs, hl, hf, hgt]
          · simp [he, hs, hl, hf, hgt]

/-! ### Claim C7: the static-limit cycle check -/

/-- C7: for a row whose incidence code is not IN6 and whose route name
normalizes (case-fold, dash unification, whitespace collapsing, dashes
stripped of surrounding whitespace) to a key of the static limit table,
the check flags `"Ciclo"` iff the cycle value fails to convert to minutes
or strictly exceeds the limit in minutes. -/
theorem claim_c7 (row : Row) (r : String) (limit : TimeOfDay)
    (h6 : normalize_incidence (row.get "Incidencia") ≠ "IN6")
    (hr : normalize_recorrido (row.get "Recorrido") = some r)
    (hl : List.lookup r ROUTE_CYCLE_LIMITS = some limit) :
    (∃ msg, ("Ciclo", msg) ∈ rule_cycle_route_limits row) ↔
      (to_minutes (row.get "Ciclo") = none ∨
       ∃ q, to_minutes (row.get "Ciclo") = some q ∧ q > limit.toMinutes) := by
  have hne : r ≠ "" := by
    rintro rfl
    rw [show List.lookup "" ROUTE_CYCLE_LIMITS = none from by decide] at hl
    cases hl
  have hbody : rule_cycle_route_limits row = route_limit_issues row r := by
    unfold rule_cycle_route_limits
    rw [if_neg h6, hr]
  rw [hbody]
  unfold route_limit_issues
  rw [if_neg hne, hl]
  cases hm : to_minutes (Row.get row "Ciclo") with
  | none => simp [hm]
  | some q =>
    by_cases hgt : q > limit.toMinutes
    · simp [hm, hgt]
    · simp [hm, hgt]

def row31 : Row := [("Recorrido", .text "T1 - Playita"), ("Ciclo", .int 31)]

def row30 : Row := [("Recorrido", .text "T1 - Playita"), ("Ciclo", .int 30)]

/-- Witness for C7: `"T1 - Playita"` normalizes to the registered key
`"t1-playita"` (as does `"t1-playita"` itself), a 31-minute cycle against
the 30-minute limit is flagged and an exactly 30-minute cycle is not. -/
theorem claim_c7_witness :
    (∃ msg, ("Ciclo", msg) ∈ rule_cycle_route_limits row31) ∧
    ¬ (∃ msg, ("Ciclo", msg) ∈ rule_cycle_route_limits row30) ∧
    normalize_recorrido (.text "T1 - Playita") =
      normalize_recorrido (.text "t1-playita") := by
  refine ⟨?_, ?_, by decide⟩
  · exact (claim_c7 row31 "t1-playita" ⟨0, 30, 0⟩ (by decide) (by decide)
      (by decide)).mpr (Or.inr ⟨31, by decide, by decide⟩)
  · intro h
    have hc := (claim_c7 row30 "t1-playita" ⟨0, 30, 0⟩ (by decide) (by decide)
      (by decide)).mp h
    rcases hc with h1 | ⟨q, hq, hgt⟩
    · rw [show to_minutes (row30.get "Ciclo") = some 30 from by decide] at h1
      cases h1
    · rw [show to_minutes (row30.get "Ciclo") = some 30 from by decide] at hq
      cases hq
      exact absurd hgt (by decide)

end Revisor
